import Mathlib

/-!
Shallow embedding of the statistics pipeline of `src/app_1755759512558.py`
(the `/run_stats` Flask endpoint and its helpers), together with proofs of
the behavioural claims about it.

Modelling conventions:
* a parsed CSV (`pd.read_csv` output) is a `DataFrame`: a header of column
  names plus rows of cells; a cell is `Option String`, `none` standing for a
  missing entry (pandas `NaN`);
* numeric values are `ℚ`; a float that may be `NaN` is `Option ℚ`, with
  `NaN`-propagating arithmetic (`oAdd`, `oSub`, `oMul`, `oDiv`);
* `np.sqrt` is an abstract parameter `sqrtQ : ℚ → ℚ` (its numeric value is
  irrelevant to every claim proved here);
* the external statistical routines (`scipy.stats.ttest_ind`,
  `smf.ols`/`anova_lm`, `pairwise_tukeyhsd`, `scipy.stats.kruskal`,
  `scikit_posthocs.posthoc_dunn`) are fields of a `TestEnv` parameter, each
  returning `Except String _` — `.error` models the routine raising, which
  the endpoint catches and converts to an HTTP 500 payload;
* `pd.to_numeric(..., errors="coerce")` is modelled by `parseNum`, a plain
  decimal parser: which strings parse is irrelevant to the claims, only the
  parsed/unparseable dichotomy matters;
* an exception raised outside the endpoint's two `try` blocks escapes the
  handler and Flask serves its raw 500 page: this is `Resp.crash`, distinct
  from every structured `json_error` payload. The one such path is line 104,
  reached when the group and value fields name the same existing column (see
  the doc comment of `run_stats`).
-/

namespace MySite

/-- One cell of a parsed table; `none` models pandas `NaN` (missing). -/
abbrev Cell := Option String

/-- A parsed tabular payload, as produced by `pd.read_csv`: a header row of
column names and data rows of cells (a short row reads as missing cells). -/
structure DataFrame where
  header : List String
  rows : List (List Cell)
deriving Repr, DecidableEq

/-- Python `str.strip()`: remove leading and trailing whitespace. -/
def pyStrip (s : String) : String :=
  ⟨((s.data.dropWhile Char.isWhitespace).reverse.dropWhile Char.isWhitespace).reverse⟩

/-- Python `str.lower()`: lowercase each character. -/
def pyLower (s : String) : String :=
  ⟨s.data.map Char.toLower⟩

/-- Digits-only string body to a natural number; `none` when empty or when a
non-digit occurs. -/
def digitsToNat (ds : List Char) : Option ℕ :=
  if ds.isEmpty then none
  else if ds.all Char.isDigit then
    some (ds.foldl (fun acc c => acc * 10 + (c.toNat - 48)) 0)
  else none

/-- Unsigned decimal numeral (`12` or `12.5`) to a rational. -/
def parsePos (cs : List Char) : Option ℚ :=
  match cs.splitOn '.' with
  | [w] => (digitsToNat w).map (fun n => (n : ℚ))
  | [w, fr] =>
    match digitsToNat w, digitsToNat fr with
    | some a, some b => some ((a : ℚ) + (b : ℚ) / (10 : ℚ) ^ fr.length)
    | _, _ => none
  | _ => none

/-- Numeric coercion of one string cell, modelling the per-entry behaviour of
`pd.to_numeric(col, errors="coerce")`: a decimal numeral (optionally signed,
surrounding whitespace ignored) parses, anything else becomes missing. -/
def parseNum (s : String) : Option ℚ :=
  match (pyStrip s).data with
  | [] => none
  | c :: cs => if c = '-' then (parsePos cs).map Neg.neg else parsePos (c :: cs)

/-- Coercion of a raw cell: a missing cell stays missing, a string cell goes
through `parseNum`. -/
def coerceCell (c : Cell) : Option ℚ := c.bind parseNum

/-- A row of the cleaned working table `df[[group_col, value_col]]` after
`pd.to_numeric` on the value column and `dropna(subset=[value_col])`: the
value is a present rational, the group label may still be missing. -/
structure CleanRow where
  group : Cell
  value : ℚ
deriving Repr, DecidableEq

/-- Cleaning of one raw row, given the header indices of the group and value
columns: the row survives iff its value cell coerces to a number. -/
def rowClean (gi vi : ℕ) (r : List Cell) : Option CleanRow :=
  (coerceCell (r.getD vi none)).map (fun q => ⟨r.getD gi none, q⟩)

/-- The cleaned table: lines 103-105 of the source
(`df = df[[group_col, value_col]].copy(); df[value_col] =
pd.to_numeric(df[value_col], errors="coerce");
df = df.dropna(subset=[value_col])`). -/
def cleanTable (df : DataFrame) (gi vi : ℕ) : List CleanRow :=
  df.rows.filterMap (rowClean gi vi)

/-- First-occurrence deduplication scan: keep an element iff it has not been
seen before. -/
def firstDedupAux (seen : List String) : List String → List String
  | [] => []
  | a :: l =>
    if a ∈ seen then firstDedupAux seen l
    else a :: firstDedupAux (a :: seen) l

/-- First-occurrence deduplication, the semantics of pandas `unique()`:
keeps each element once, at the position of its first appearance. -/
def firstDedup (l : List String) : List String :=
  firstDedupAux [] l

/-- Line 108 of the source: `groups = df[group_col].dropna().unique().tolist()`
— the distinct non-missing group labels of the cleaned table, in order of
first appearance. -/
def groupsOf (t : List CleanRow) : List String :=
  firstDedup (t.filterMap (fun r => r.group))

/-- Line 109 of the source:
`n_by_group = df.groupby(group_col)[value_col].size().to_dict()` — the map
from each distinct non-missing group label to its row count in the cleaned
table (`groupby` drops rows whose group key is missing). The dict is modelled
as an association list; pandas emits the keys sorted, but only the mapping
itself is observable through the claims, so the keys are listed in
first-appearance order here. -/
def nByGroup (t : List CleanRow) : List (String × ℕ) :=
  (groupsOf t).map (fun g => (g, (t.filter (fun r => r.group == some g)).length))

/-- The value column restricted to one group:
`df[df[group_col] == g][value_col]` (a missing group label matches no `g`). -/
def groupValues (t : List CleanRow) (g : String) : List ℚ :=
  (t.filter (fun r => r.group == some g)).map (fun r => r.value)

/-- NaN-propagating addition on optional rationals. -/
def oAdd (a b : Option ℚ) : Option ℚ := a.bind (fun x => b.map (fun y => x + y))

/-- NaN-propagating subtraction on optional rationals. -/
def oSub (a b : Option ℚ) : Option ℚ := a.bind (fun x => b.map (fun y => x - y))

/-- NaN-propagating multiplication on optional rationals. -/
def oMul (a b : Option ℚ) : Option ℚ := a.bind (fun x => b.map (fun y => x * y))

/-- NaN-propagating division on optional rationals. -/
def oDiv (a b : Option ℚ) : Option ℚ := a.bind (fun x => b.map (fun y => x / y))

/-- The fixed normal-approximation multiplier `1.96` of the 95% confidence
interval. -/
def c196 : ℚ := 196 / 100

/-- Mean of a list of rationals; missing (`NaN`) for an empty list, matching
pandas `mean()` on an empty group. -/
def qmean (xs : List ℚ) : Option ℚ :=
  if xs.length = 0 then none else some (xs.sum / (xs.length : ℚ))

/-- Sample variance with `ddof = 1`, the quantity under pandas `std()`:
missing (`NaN`) when fewer than two observations. -/
def sampleVar (xs : List ℚ) : Option ℚ :=
  if xs.length < 2 then none
  else
    some (((xs.map (fun x => (x - xs.sum / (xs.length : ℚ)) ^ 2)).sum) /
      ((xs.length : ℚ) - 1))

/-- One descriptive record, a row of `descriptives` (lines 52-61 of the
source): per-group `mean`, `std` (sample standard deviation), `n`,
`sem = std / sqrt(clip(n, lower=1))`, and the 95% confidence interval
`mean ± 1.96 × sem`. -/
structure DescRecord where
  Group : String
  mean : Option ℚ
  std : Option ℚ
  n : ℕ
  sem : Option ℚ
  ci95_lo : Option ℚ
  ci95_hi : Option ℚ
deriving Repr, DecidableEq

/-- The descriptive record of one group, parametrised by the square-root
function `sqrtQ` standing for `np.sqrt`. -/
def descRecord (sqrtQ : ℚ → ℚ) (t : List CleanRow) (g : String) : DescRecord :=
  let xs := groupValues t g
  let n := xs.length
  let mean := qmean xs
  let std := (sampleVar xs).map sqrtQ
  let sem := oDiv std (some (sqrtQ ((max n 1 : ℕ) : ℚ)))
  { Group := g
    mean := mean
    std := std
    n := n
    sem := sem
    ci95_lo := oSub mean (oMul (some c196) sem)
    ci95_hi := oAdd mean (oMul (some c196) sem) }

/-- The `descriptives` helper (lines 52-61): one record per distinct group of
the cleaned table. `df.groupby` emits one group per distinct non-missing
label, exactly the labels of `groupsOf`; pandas orders them sorted, but only
the set of records is observable through the claims. -/
def descriptives (sqrtQ : ℚ → ℚ) (t : List CleanRow) : List DescRecord :=
  (groupsOf t).map (descRecord sqrtQ t)

/-- Optional diagnostic fields a failure payload may carry alongside
`ok: false` and `error` (the keyword arguments of `json_error`). -/
structure Extra where
  columns : Option (List String)
  group_requested : Option String
  value_requested : Option String
  groups : Option (List String)
  params : Option (List String)
  detail : Option String
deriving Repr, DecidableEq

/-- No diagnostic fields. -/
def exNone : Extra := ⟨none, none, none, none, none, none⟩

/-- A failure payload as produced by `json_error` (lines 63-67): HTTP status
code, the `error` message, and the extra diagnostic fields. -/
structure Failure where
  code : ℕ
  error : String
  extra : Extra
deriving Repr, DecidableEq

/-- An applicability failure: HTTP 400 with the actual group list attached
(`json_error(msg, groups=groups)`). -/
def applicErr (msg : String) (gs : List String) : Failure :=
  ⟨400, msg, { exNone with groups := some gs }⟩

/-- The catch-all of the `try` block (lines 154-156):
`json_error("Exception during analysis.", detail=str(e), code=500)`. -/
def analysisErr (e : String) : Failure :=
  ⟨500, "Exception during analysis.", { exNone with detail := some e }⟩

/-- The variant part of a success payload: which test ran and its fields
(`t`/`p`, `anova`/`tukey`, or `H`/`p`/`dunn`). The ANOVA table, Tukey
summary and Dunn table are external library output, carried opaquely as
strings. -/
inductive TestResult where
  | welch (t p : ℚ)
  | anova (tbl tukey : String)
  | kruskal (H p : ℚ) (dunn : String)
deriving Repr, DecidableEq

/-- The external statistical routines the endpoint calls inside its `try`
block. `.error e` models the routine raising an exception whose string form
is `e`. -/
structure TestEnv where
  ttest : List ℚ → List ℚ → Except String (ℚ × ℚ)
  anovaTbl : List CleanRow → String → String → Except String String
  tukey : List CleanRow → Except String String
  kruskal : List (List ℚ) → Except String (ℚ × ℚ)
  dunn : List CleanRow → Except String String

/-- A success payload (the `out` dict of lines 111-117 plus the test
fields). -/
structure SuccessPayload where
  groups : List String
  n_by_group : List (String × ℕ)
  descriptives : List DescRecord
  requested_test : String
  result : TestResult
deriving Repr, DecidableEq

/-- The endpoint response: `jsonify(out)` on success, a `json_error` payload
with its HTTP status code, or — `crash` — an exception raised outside both
`try` blocks that escapes the handler entirely, which Flask surfaces as its
generic 500 error page: a raw unhandled fault, not a structured payload. -/
inductive Resp where
  | success (p : SuccessPayload)
  | failure (code : ℕ) (error : String) (extra : Extra)
  | crash (detail : String)
deriving Repr, DecidableEq

/-- The `ttest` branch body (lines 124-127): Welch test on the two group
samples; an exception becomes the 500 payload. -/
def ttestRun (env : TestEnv) (t : List CleanRow) (groups : List String) :
    Except Failure TestResult :=
  match env.ttest (groupValues t (groups.getD 0 ""))
      (groupValues t (groups.getD 1 "")) with
  | .error e => .error (analysisErr e)
  | .ok (tv, pv) => .ok (.welch tv pv)

/-- The `anova` branch body (lines 134-141): model fit and ANOVA table, then
Tukey HSD; an exception in either becomes the 500 payload. -/
def anovaRun (env : TestEnv) (t : List CleanRow) (group_col value_col : String) :
    Except Failure TestResult :=
  match env.anovaTbl t value_col group_col with
  | .error e => .error (analysisErr e)
  | .ok tbl =>
    match env.tukey t with
    | .error e => .error (analysisErr e)
    | .ok tk => .ok (.anova tbl tk)

/-- The `kruskal` branch body (lines 146-150): Kruskal–Wallis over the
per-group samples, then the Dunn post-hoc table; an exception in either
becomes the 500 payload. -/
def kruskalRun (env : TestEnv) (t : List CleanRow) (groups : List String) :
    Except Failure TestResult :=
  match env.kruskal (groups.map (groupValues t)) with
  | .error e => .error (analysisErr e)
  | .ok (hv, pv) =>
    match env.dunn t with
    | .error e => .error (analysisErr e)
    | .ok d => .ok (.kruskal hv pv d)

/-- The test dispatcher (lines 120-153): applicability checks on the distinct
group count, then the corresponding branch body; an unrecognised identifier
is the `UnknownTest` failure. -/
def dispatch (env : TestEnv) (test group_col value_col : String)
    (t : List CleanRow) : Except Failure TestResult :=
  let groups := groupsOf t
  if test = "ttest" then
    if groups.length ≠ 2 then
      .error (applicErr "t-test requires exactly 2 groups." groups)
    else ttestRun env t groups
  else if test = "anova" then
    if groups.length < 3 then
      .error (applicErr "One-way ANOVA requires ≥3 groups." groups)
    else anovaRun env t group_col value_col
  else if test = "kruskal" then
    if groups.length < 3 then
      .error (applicErr "Kruskal–Wallis requires ≥3 groups." groups)
    else kruskalRun env t groups
  else .error ⟨400, "Unknown test. Use: ttest | anova | kruskal.", exNone⟩

/-- Response assembly: a dispatcher failure becomes its `json_error` payload,
a test result is merged with the dataset structure and descriptives into the
success payload (lines 111-117 and 158). -/
def assemble (sqrtQ : ℚ → ℚ) (test : String) (t : List CleanRow) :
    Except Failure TestResult → Resp
  | .error fl => .failure fl.code fl.error fl.extra
  | .ok tr =>
    .success ⟨groupsOf t, nByGroup t, descriptives sqrtQ t, test, tr⟩

/-- The pipeline from the cleaned table on: structure, descriptives, dispatch,
assembly. -/
def run_core (sqrtQ : ℚ → ℚ) (env : TestEnv) (group_col value_col test : String)
    (t : List CleanRow) : Resp :=
  assemble sqrtQ test t (dispatch env test group_col value_col t)

/-- The form keys present in the request, as reported by
`params=list(request.form.keys())` (the file part lives in `request.files`,
not the form). -/
def formKeys (groupF valueF testF : Option String) : List String :=
  (if groupF.isSome then ["group"] else []) ++
    (if valueF.isSome then ["value"] else []) ++
      (if testF.isSome then ["test"] else [])

/-- The `/run_stats` endpoint (lines 76-158). Arguments: `sqrtQ` and `env`
abstract the numeric libraries; `file` is `none` when no file part was
uploaded, `some (.error e)` when `pd.read_csv` raises `e`, `some (.ok df)`
when it parses; `groupF`, `valueF`, `testF` are the raw form fields
(`none` = absent).

When the two requested names are equal (and present), line 103
`df[[group_col, value_col]]` produces a frame with the column duplicated, so
line 104 applies `pd.to_numeric` to a two-column DataFrame instead of a
Series and raises `TypeError` unconditionally (before the row data is
inspected). Lines 102-105 sit outside both `try` blocks (the first ends at
line 93, the second starts at line 120), so this exception escapes the
handler: the model returns `Resp.crash` with the TypeError text. -/
def run_stats (sqrtQ : ℚ → ℚ) (env : TestEnv)
    (file : Option (Except String DataFrame))
    (groupF valueF testF : Option String) : Resp :=
  let group_col := pyStrip (groupF.getD "")
  let value_col := pyStrip (valueF.getD "")
  let test := pyLower (pyStrip (testF.getD ""))
  match file with
  | none => .failure 400 "No CSV uploaded." exNone
  | some parsed =>
    if group_col = "" ∨ value_col = "" ∨ test = "" then
      .failure 400 "Missing group/value/test parameters."
        { exNone with params := some (formKeys groupF valueF testF) }
    else
      match parsed with
      | .error e =>
        .failure 400 "Could not read CSV." { exNone with detail := some e }
      | .ok df =>
        if group_col ∈ df.header ∧ value_col ∈ df.header then
          if group_col = value_col then
            .crash "TypeError: arg must be a list, tuple, 1-d array, or Series"
          else
            run_core sqrtQ env group_col value_col test
              (cleanTable df (df.header.findIdx (fun c => c == group_col))
                (df.header.findIdx (fun c => c == value_col)))
        else
          .failure 400 "Column not found in CSV."
            { exNone with
                columns := some df.header
                group_requested := some group_col
                value_requested := some value_col }

/-- Identity function on ℚ, a concrete instantiation of the abstract `sqrtQ`
parameter for closed witness computations (no claim depends on the numeric
value of the square root). -/
def qId : ℚ → ℚ := fun q => q

/-- A test environment whose every routine returns successfully, for closed
witness computations. -/
def envOk : TestEnv :=
  ⟨fun _ _ => .ok (0, 0), fun _ _ _ => .ok "", fun _ => .ok "",
    fun _ => .ok (0, 0), fun _ => .ok ""⟩

/-- The error messages of the validation (HTTP 400) failure paths of
`run_stats`. -/
def validationMsgs : List String :=
  ["No CSV uploaded.", "Missing group/value/test parameters.",
   "Could not read CSV.", "Column not found in CSV.",
   "t-test requires exactly 2 groups.", "One-way ANOVA requires ≥3 groups.",
   "Kruskal–Wallis requires ≥3 groups.", "Unknown test. Use: ttest | anova | kruskal."]

/-! Helper lemmas about first-occurrence deduplication. -/

theorem mem_firstDedupAux (x : String) (l : List String) :
    ∀ seen : List String, x ∈ firstDedupAux seen l ↔ x ∈ l ∧ x ∉ seen := by
  induction l with
  | nil => intro seen; simp [firstDedupAux]
  | cons a l ih =>
    intro seen
    by_cases h : a ∈ seen
    · simp only [firstDedupAux, if_pos h, ih seen, List.mem_cons]
      constructor
      · rintro ⟨hx, hns⟩
        exact ⟨Or.inr hx, hns⟩
      · rintro ⟨rfl | hx, hns⟩
        · exact absurd h hns
        · exact ⟨hx, hns⟩
    · simp only [firstDedupAux, if_neg h, List.mem_cons, ih (a :: seen)]
      constructor
      · rintro (rfl | ⟨hx, hns⟩)
        · exact ⟨Or.inl rfl, h⟩
        · exact ⟨Or.inr hx, fun hs => hns (Or.inr hs)⟩
      · rintro ⟨rfl | hx, hns⟩
        · exact Or.inl rfl
        · by_cases hxa : x = a
          · exact Or.inl hxa
          · exact Or.inr ⟨hx, fun hs => hs.elim hxa hns⟩

theorem nodup_firstDedupAux (l : List String) :
    ∀ seen : List String, (firstDedupAux seen l).Nodup := by
  induction l with
  | nil => intro seen; simp [firstDedupAux]
  | cons a l ih =>
    intro seen
    by_cases h : a ∈ seen
    · simpa only [firstDedupAux, if_pos h] using ih seen
    · simp only [firstDedupAux, if_neg h, List.nodup_cons]
      refine ⟨fun hmem => ?_, ih (a :: seen)⟩
      exact ((mem_firstDedupAux a l (a :: seen)).mp hmem).2 (List.mem_cons_self a seen)

theorem pairwise_firstDedupAux (l : List String) :
    ∀ seen : List String,
      (firstDedupAux seen l).Pairwise (fun a b => l.indexOf a < l.indexOf b) := by
  induction l with
  | nil => intro seen; simp [firstDedupAux]
  | cons a l ih =>
    intro seen
    by_cases h : a ∈ seen
    · simp only [firstDedupAux, if_pos h]
      refine List.Pairwise.imp_of_mem ?_ (ih seen)
      intro x y hx hy hxy
      have hx2 := (mem_firstDedupAux x l seen).mp hx
      have hy2 := (mem_firstDedupAux y l seen).mp hy
      have hxa : a ≠ x := fun e => hx2.2 (e ▸ h)
      have hya : a ≠ y := fun e => hy2.2 (e ▸ h)
      rw [List.indexOf_cons_ne _ hxa, List.indexOf_cons_ne _ hya]
      exact Nat.succ_lt_succ hxy
    · simp only [firstDedupAux, if_neg h, List.pairwise_cons]
      constructor
      · intro b hb
        have hb2 := (mem_firstDedupAux b l (a :: seen)).mp hb
        have hba : a ≠ b := fun e => hb2.2 (e ▸ List.mem_cons_self a seen)
        rw [List.indexOf_cons_self, List.indexOf_cons_ne _ hba]
        exact Nat.succ_pos _
      · refine List.Pairwise.imp_of_mem ?_ (ih (a :: seen))
        intro x y hx hy hxy
        have hx2 := (mem_firstDedupAux x l (a :: seen)).mp hx
        have hy2 := (mem_firstDedupAux y l (a :: seen)).mp hy
        have hxa : a ≠ x := fun e => hx2.2 (e ▸ List.mem_cons_self a seen)
        have hya : a ≠ y := fun e => hy2.2 (e ▸ List.mem_cons_self a seen)
        rw [List.indexOf_cons_ne _ hxa, List.indexOf_cons_ne _ hya]
        exact Nat.succ_lt_succ hxy

theorem mem_firstDedup (x : String) (l : List String) :
    x ∈ firstDedup l ↔ x ∈ l := by
  simp [firstDedup, mem_firstDedupAux]

theorem nodup_firstDedup (l : List String) : (firstDedup l).Nodup :=
  nodup_firstDedupAux l []

theorem pairwise_firstDedup (l : List String) :
    (firstDedup l).Pairwise (fun a b => l.indexOf a < l.indexOf b) :=
  pairwise_firstDedupAux l []

theorem mem_groupsOf (g : String) (t : List CleanRow) :
    g ∈ groupsOf t ↔ ∃ r ∈ t, r.group = some g := by
  simp [groupsOf, mem_firstDedup, List.mem_filterMap]

theorem countPos_of_mem_groupsOf {g : String} {t : List CleanRow}
    (h : g ∈ groupsOf t) :
    0 < (t.filter (fun r => r.group == some g)).length := by
  obtain ⟨r, hr, hg⟩ := (mem_groupsOf g t).mp h
  have hmem : r ∈ t.filter (fun r => r.group == some g) := by
    rw [List.mem_filter]
    exact ⟨hr, by simp [hg]⟩
  exact List.length_pos.mpr (List.ne_nil_of_mem hmem)

theorem sum_counts_firstDedup (ks : List String) :
    ((firstDedup ks).map (fun g => ks.count g)).sum = ks.length := by
  have h1 : (firstDedup ks).toFinset.sum (fun g => ks.count g)
      = ((firstDedup ks).map (fun g => ks.count g)).sum :=
    List.sum_toFinset _ (nodup_firstDedup ks)
  have h2 : (firstDedup ks).toFinset = ks.toFinset := by
    ext x
    simp [mem_firstDedup]
  rw [← h1, h2, List.sum_toFinset_count_eq_length]

theorem filter_length_eq_count (g : String) (t : List CleanRow) :
    (t.filter (fun r => r.group == some g)).length
      = (t.filterMap (fun r => r.group)).count g := by
  induction t with
  | nil => simp
  | cons r t ih =>
    cases hg : r.group with
    | none => simp [List.filter_cons, List.filterMap_cons, hg, ih]
    | some h =>
      by_cases hgh : h = g
      · subst hgh
        simp [List.filter_cons, List.filterMap_cons, hg, ih, List.count_cons]
      · simp [List.filter_cons, List.filterMap_cons, hg, ih, List.count_cons, hgh]

theorem sum_nByGroup (t : List CleanRow) :
    ((nByGroup t).map Prod.snd).sum
      = (t.filter (fun r => r.group.isSome)).length := by
  have hks : (t.filter (fun r => r.group.isSome)).length
      = (t.filterMap (fun r => r.group)).length := by
    induction t with
    | nil => rfl
    | cons r t ih =>
      cases hg : r.group <;>
        simp [List.filter_cons, List.filterMap_cons, hg, ih]
  have hmap : ((nByGroup t).map Prod.snd).sum
      = ((groupsOf t).map
          (fun g => (t.filterMap (fun r => r.group)).count g)).sum := by
    simp only [nByGroup, List.map_map]
    congr 1
    exact List.map_congr_left (fun g _ => filter_length_eq_count g t)
  rw [hks, hmap]
  exact sum_counts_firstDedup (t.filterMap (fun r => r.group))

/-- Claim C2: for every group record in the descriptives output, `sem` equals
`std / sqrt(max(n, 1))`, `ci95_lo` equals `mean - 1.96 × sem`, `ci95_hi`
equals `mean + 1.96 × sem`, and consequently the confidence interval is
symmetric around the mean: `ci95_hi - mean = mean - ci95_lo` (all in the
NaN-propagating arithmetic of optional rationals). -/
theorem claim_C2_descriptives_sem_ci (sqrtQ : ℚ → ℚ) (t : List CleanRow)
    (rec : DescRecord) (hrec : rec ∈ descriptives sqrtQ t) :
    rec.sem = oDiv rec.std (some (sqrtQ ((max rec.n 1 : ℕ) : ℚ)))
    ∧ rec.ci95_lo = oSub rec.mean (oMul (some c196) rec.sem)
    ∧ rec.ci95_hi = oAdd rec.mean (oMul (some c196) rec.sem)
    ∧ oSub rec.ci95_hi rec.mean = oSub rec.mean rec.ci95_lo := by
  obtain ⟨g, hg, rfl⟩ := List.mem_map.mp hrec
  refine ⟨rfl, rfl, rfl, ?_⟩
  simp only [descRecord]
  cases hm : qmean (groupValues t g) with
  | none => simp [oSub, oAdd, oMul, oDiv]
  | some m =>
    cases hsem : oDiv ((sampleVar (groupValues t g)).map sqrtQ)
        (some (sqrtQ ((max (groupValues t g).length 1 : ℕ) : ℚ))) with
    | none => simp [oSub, oAdd, oMul, hm, hsem]
    | some s =>
      simp only [oSub, oAdd, oMul, Option.some_bind, Option.map_some',
        Option.some.injEq]
      ring

/-- Witness for C2 at a concrete group of two rows. -/
theorem claim_C2_witness :
    descRecord qId [⟨some "A", 1⟩, ⟨some "A", 3⟩] "A"
        ∈ descriptives qId [⟨some "A", 1⟩, ⟨some "A", 3⟩]
    ∧ ((descRecord qId [⟨some "A", 1⟩, ⟨some "A", 3⟩] "A").sem
        = oDiv (descRecord qId [⟨some "A", 1⟩, ⟨some "A", 3⟩] "A").std
            (some (qId ((max (descRecord qId [⟨some "A", 1⟩, ⟨some "A", 3⟩] "A").n 1 : ℕ) : ℚ)))
      ∧ (descRecord qId [⟨some "A", 1⟩, ⟨some "A", 3⟩] "A").ci95_lo
        = oSub (descRecord qId [⟨some "A", 1⟩, ⟨some "A", 3⟩] "A").mean
            (oMul (some c196) (descRecord qId [⟨some "A", 1⟩, ⟨some "A", 3⟩] "A").sem)
      ∧ (descRecord qId [⟨some "A", 1⟩, ⟨some "A", 3⟩] "A").ci95_hi
        = oAdd (descRecord qId [⟨some "A", 1⟩, ⟨some "A", 3⟩] "A").mean
            (oMul (some c196) (descRecord qId [⟨some "A", 1⟩, ⟨some "A", 3⟩] "A").sem)
      ∧ oSub (descRecord qId [⟨some "A", 1⟩, ⟨some "A", 3⟩] "A").ci95_hi
            (descRecord qId [⟨some "A", 1⟩, ⟨some "A", 3⟩] "A").mean
        = oSub (descRecord qId [⟨some "A", 1⟩, ⟨some "A", 3⟩] "A").mean
            (descRecord qId [⟨some "A", 1⟩, ⟨some "A", 3⟩] "A").ci95_lo) :=
  ⟨List.mem_map_of_mem _ (by decide),
    claim_C2_descriptives_sem_ci qId _ _ (List.mem_map_of_mem _ (by decide))⟩

/-- Claim C3 counterexample: a cleaned table with one surviving row whose
group entry is missing. The row remains in the cleaned table but `groupby`
drops it, so the counts of `n_by_group` sum to 0 while 1 row remains. -/
theorem claim_C3_counterexample :
    ¬ (((nByGroup (cleanTable ⟨["g", "v"], [[none, some "1"]]⟩ 0 1)).map
          Prod.snd).sum
        = (cleanTable ⟨["g", "v"], [[none, some "1"]]⟩ 0 1).length) := by
  decide

/-- Claim C3 (amended): the sum of the counts in `n_by_group` equals the
number of rows remaining in the cleaned table whose group-column entry is
non-missing; rows whose group entry is missing survive the cleaning but are
not counted by `groupby`. -/
theorem claim_C3_sum_counts (df : DataFrame) (gi vi : ℕ) :
    ((nByGroup (cleanTable df gi vi)).map Prod.snd).sum
      = ((cleanTable df gi vi).filter (fun r => r.group.isSome)).length :=
  sum_nByGroup _

/-- Claim C8: the groups list contains each distinct non-missing group value
exactly once (`Nodup` plus the membership characterisation), in order of
first appearance in the cleaned table (pairwise increasing first indices in
the column of group labels), and `n_by_group` maps each group value to its
row count after cleaning. -/
theorem claim_C8_groups_structure (df : DataFrame) (gi vi : ℕ) :
    (groupsOf (cleanTable df gi vi)).Nodup
    ∧ (∀ g, g ∈ groupsOf (cleanTable df gi vi) ↔
        ∃ r ∈ cleanTable df gi vi, r.group = some g)
    ∧ (groupsOf (cleanTable df gi vi)).Pairwise
        (fun a b =>
          ((cleanTable df gi vi).filterMap (fun r => r.group)).indexOf a
            < ((cleanTable df gi vi).filterMap (fun r => r.group)).indexOf b)
    ∧ (∀ g n, (g, n) ∈ nByGroup (cleanTable df gi vi) ↔
        g ∈ groupsOf (cleanTable df gi vi)
          ∧ n = ((cleanTable df gi vi).filter
              (fun r => r.group == some g)).length) := by
  refine ⟨nodup_firstDedup _, fun g => mem_groupsOf g _, pairwise_firstDedup _,
    fun g n => ?_⟩
  simp only [nByGroup, List.mem_map]
  constructor
  · rintro ⟨g2, hg2, heq⟩
    rw [Prod.mk.injEq] at heq
    obtain ⟨rfl, hn⟩ := heq
    exact ⟨hg2, hn.symm⟩
  · rintro ⟨hg, rfl⟩
    exact ⟨g, hg, rfl⟩

/-- Witness for C8 at a concrete table (membership instance of the
`n_by_group` characterisation). -/
theorem claim_C8_witness :
    ("A", 2) ∈ nByGroup (cleanTable
      ⟨["g", "v"], [[some "A", some "1"], [some "B", some "2"],
        [some "A", some "3"]]⟩ 0 1) :=
  ((claim_C8_groups_structure
      ⟨["g", "v"], [[some "A", some "1"], [some "B", some "2"],
        [some "A", some "3"]]⟩ 0 1).2.2.2 "A" 2).mpr ⟨by decide, by decide⟩

/-- Claim C9: the groups list, the key list of `n_by_group`, and the `Group`
fields of the descriptive records agree; every listed group has positive row
count (a zero-count group is never present); every listed group comes from a
surviving row with that non-missing label; and every row surviving the
value-coercion cleaning — in particular one whose group entry is missing —
remains in the cleaned table handed to the statistical tests. -/
theorem claim_C9_key_agreement (sqrtQ : ℚ → ℚ) (df : DataFrame) (gi vi : ℕ) :
    ((nByGroup (cleanTable df gi vi)).map Prod.fst
      = groupsOf (cleanTable df gi vi))
    ∧ ((descriptives sqrtQ (cleanTable df gi vi)).map (fun d => d.Group)
      = groupsOf (cleanTable df gi vi))
    ∧ (∀ g ∈ groupsOf (cleanTable df gi vi),
        0 < ((cleanTable df gi vi).filter (fun r => r.group == some g)).length)
    ∧ (∀ g ∈ groupsOf (cleanTable df gi vi),
        ∃ r ∈ cleanTable df gi vi, r.group = some g)
    ∧ (∀ r ∈ df.rows, ∀ q, rowClean gi vi r = some q →
        q ∈ cleanTable df gi vi) := by
  refine ⟨?_, ?_, fun g hg => countPos_of_mem_groupsOf hg,
    fun g hg => (mem_groupsOf g _).mp hg, fun r hr q hq => ?_⟩
  · have hcomp2 : (Prod.fst ∘ fun g =>
        (g, (List.filter (fun r => r.group == some g) (cleanTable df gi vi)).length))
        = fun g : String => g := rfl
    simp [nByGroup, List.map_map, hcomp2]
  · have hcomp : (fun d : DescRecord => d.Group)
        ∘ descRecord sqrtQ (cleanTable df gi vi) = fun g => g := rfl
    simp [descriptives, List.map_map, hcomp]
  · exact List.mem_filterMap.mpr ⟨r, hr, hq⟩

/-- Witness for C9 at a concrete table with a missing-group row. -/
theorem claim_C9_witness :
    ((nByGroup (cleanTable ⟨["g", "v"], [[some "A", some "1"], [none, some "2"]]⟩ 0 1)).map
        Prod.fst
      = groupsOf (cleanTable ⟨["g", "v"], [[some "A", some "1"], [none, some "2"]]⟩ 0 1))
    ∧ 0 < ((cleanTable ⟨["g", "v"], [[some "A", some "1"], [none, some "2"]]⟩ 0 1).filter
        (fun r => r.group == some "A")).length :=
  ⟨(claim_C9_key_agreement qId ⟨["g", "v"], [[some "A", some "1"], [none, some "2"]]⟩ 0 1).1,
    (claim_C9_key_agreement qId ⟨["g", "v"], [[some "A", some "1"], [none, some "2"]]⟩ 0 1).2.2.1
      "A" (by decide)⟩

/-- When the file parses, the trimmed form fields are non-empty, both named
columns exist in the header, and the two column names are distinct (so the
cleaning of lines 103-105 succeeds instead of crashing at line 104),
`run_stats` reaches the core pipeline on the cleaned table. -/
theorem run_stats_reaches_core (sqrtQ : ℚ → ℚ) (env : TestEnv) (df : DataFrame)
    (groupF valueF testF : Option String) (gc vc ts : String) (t : List CleanRow)
    (hgc2 : gc = pyStrip (groupF.getD "")) (hvc2 : vc = pyStrip (valueF.getD ""))
    (hts2 : ts = pyLower (pyStrip (testF.getD "")))
    (ht : t = cleanTable df (df.header.findIdx (fun c => c == gc))
        (df.header.findIdx (fun c => c == vc)))
    (hgc : gc ≠ "") (hvc : vc ≠ "") (hts : ts ≠ "")
    (hg : gc ∈ df.header) (hv : vc ∈ df.header) (hneq : gc ≠ vc) :
    run_stats sqrtQ env (some (.ok df)) groupF valueF testF
      = run_core sqrtQ env gc vc ts t := by
  subst hgc2 hvc2 hts2 ht
  simp only [run_stats]
  rw [if_neg (by push_neg; exact ⟨hgc, hvc, hts⟩), if_pos ⟨hg, hv⟩, if_neg hneq]

/-- Claim C1: with a successfully cleaned table (non-empty trimmed fields,
parsed CSV, both columns present and distinct — with equal names the cleaning
itself crashes at line 104 and no dispatch happens), a `ttest` request with a
distinct-group count other than 2, or an `anova`/`kruskal` request with
fewer than 3 distinct groups, yields the HTTP 400 applicability failure
carrying the actual group list (independently of the test routines, so no
statistic is computed); with the cardinality condition met, `run_stats`
dispatches to the corresponding test branch. -/
theorem claim_C1_applicability (sqrtQ : ℚ → ℚ) (env : TestEnv) (df : DataFrame)
    (groupF valueF testF : Option String) (gc vc ts : String) (t : List CleanRow)
    (hgc2 : gc = pyStrip (groupF.getD "")) (hvc2 : vc = pyStrip (valueF.getD ""))
    (hts2 : ts = pyLower (pyStrip (testF.getD "")))
    (ht : t = cleanTable df (df.header.findIdx (fun c => c == gc))
        (df.header.findIdx (fun c => c == vc)))
    (hgc : gc ≠ "") (hvc : vc ≠ "") (hts : ts ≠ "")
    (hg : gc ∈ df.header) (hv : vc ∈ df.header) (hneq : gc ≠ vc) :
    (ts = "ttest" → (groupsOf t).length ≠ 2 →
        run_stats sqrtQ env (some (.ok df)) groupF valueF testF
          = .failure 400 "t-test requires exactly 2 groups."
              { exNone with groups := some (groupsOf t) })
    ∧ (ts = "anova" → (groupsOf t).length < 3 →
        run_stats sqrtQ env (some (.ok df)) groupF valueF testF
          = .failure 400 "One-way ANOVA requires ≥3 groups."
              { exNone with groups := some (groupsOf t) })
    ∧ (ts = "kruskal" → (groupsOf t).length < 3 →
        run_stats sqrtQ env (some (.ok df)) groupF valueF testF
          = .failure 400 "Kruskal–Wallis requires ≥3 groups."
              { exNone with groups := some (groupsOf t) })
    ∧ (ts = "ttest" → (groupsOf t).length = 2 →
        run_stats sqrtQ env (some (.ok df)) groupF valueF testF
          = assemble sqrtQ ts t (ttestRun env t (groupsOf t)))
    ∧ (ts = "anova" → 3 ≤ (groupsOf t).length →
        run_stats sqrtQ env (some (.ok df)) groupF valueF testF
          = assemble sqrtQ ts t (anovaRun env t gc vc))
    ∧ (ts = "kruskal" → 3 ≤ (groupsOf t).length →
        run_stats sqrtQ env (some (.ok df)) groupF valueF testF
          = assemble sqrtQ ts t (kruskalRun env t (groupsOf t))) := by
  have hrun := run_stats_reaches_core sqrtQ env df groupF valueF testF gc vc ts t
    hgc2 hvc2 hts2 ht hgc hvc hts hg hv hneq
  refine ⟨?_, ?_, ?_, ?_, ?_, ?_⟩ <;> intro hts2 hlen <;> subst hts2 <;> rw [hrun] <;>
    simp only [run_core, dispatch]
  · simp [hlen, assemble, applicErr, exNone]
  · simp [hlen, assemble, applicErr, exNone]
  · simp [hlen, assemble, applicErr, exNone]
  · simp [hlen]
  · simp [Nat.not_lt.mpr hlen]
  · simp [Nat.not_lt.mpr hlen]

/-- Witness for C1: a one-group table with test `ttest` yields the
applicability failure carrying the group list. -/
theorem claim_C1_witness :
    run_stats qId envOk (some (.ok ⟨["g", "v"], [[some "A", some "1"]]⟩))
        (some "g") (some "v") (some "ttest")
      = .failure 400 "t-test requires exactly 2 groups."
          { exNone with groups := some (groupsOf [⟨some "A", (1 : ℚ)⟩]) } :=
  (claim_C1_applicability qId envOk ⟨["g", "v"], [[some "A", some "1"]]⟩
      (some "g") (some "v") (some "ttest") "g" "v" "ttest" [⟨some "A", 1⟩]
      rfl rfl rfl (by decide) (by decide) (by decide) (by decide) (by decide)
      (by decide) (by decide)).1 rfl (by decide)

/-- Claim C6: when the trimmed form fields are non-empty and the file parses
but the requested group or value column is missing from the header, the
result is the HTTP 400 column-not-found failure listing the full header and
both requested names. -/
theorem claim_C6_column_not_found (sqrtQ : ℚ → ℚ) (env : TestEnv)
    (df : DataFrame) (groupF valueF testF : Option String) (gc vc ts : String)
    (hgc2 : gc = pyStrip (groupF.getD "")) (hvc2 : vc = pyStrip (valueF.getD ""))
    (hts2 : ts = pyLower (pyStrip (testF.getD "")))
    (hgc : gc ≠ "") (hvc : vc ≠ "") (hts : ts ≠ "")
    (hcols : ¬ (gc ∈ df.header ∧ vc ∈ df.header)) :
    run_stats sqrtQ env (some (.ok df)) groupF valueF testF
      = .failure 400 "Column not found in CSV."
          { exNone with
              columns := some df.header
              group_requested := some gc
              value_requested := some vc } := by
  subst hgc2 hvc2 hts2
  simp only [run_stats]
  rw [if_neg (by push_neg; exact ⟨hgc, hvc, hts⟩), if_neg hcols]

/-- Witness for C6: requesting column `"x"` against header `["g", "v"]`. -/
theorem claim_C6_witness :
    run_stats qId envOk (some (.ok ⟨["g", "v"], [[some "A", some "1"]]⟩))
        (some "x") (some "v") (some "ttest")
      = .failure 400 "Column not found in CSV."
          { exNone with
              columns := some ["g", "v"]
              group_requested := some "x"
              value_requested := some "v" } :=
  claim_C6_column_not_found qId envOk ⟨["g", "v"], [[some "A", some "1"]]⟩
    (some "x") (some "v") (some "ttest") "x" "v" "ttest"
    rfl rfl rfl (by decide) (by decide) (by decide) (by decide)

/-- Claim C7: with the pipeline reaching dispatch (which requires the two
column names distinct — with equal names line 104 crashes before the
unknown-test branch), a normalised test identifier other than `ttest`,
`anova`, `kruskal` yields the HTTP 400 unknown-test failure naming the three
valid identifiers, independently of the test routines (so no computation is
attempted). -/
theorem claim_C7_unknown_identifier (sqrtQ : ℚ → ℚ) (env : TestEnv)
    (df : DataFrame) (groupF valueF testF : Option String) (gc vc ts : String)
    (t : List CleanRow)
    (hgc2 : gc = pyStrip (groupF.getD "")) (hvc2 : vc = pyStrip (valueF.getD ""))
    (hts2 : ts = pyLower (pyStrip (testF.getD "")))
    (ht : t = cleanTable df (df.header.findIdx (fun c => c == gc))
        (df.header.findIdx (fun c => c == vc)))
    (hgc : gc ≠ "") (hvc : vc ≠ "") (hts : ts ≠ "")
    (hg : gc ∈ df.header) (hv : vc ∈ df.header) (hneq : gc ≠ vc)
    (h1 : ts ≠ "ttest") (h2 : ts ≠ "anova") (h3 : ts ≠ "kruskal") :
    run_stats sqrtQ env (some (.ok df)) groupF valueF testF
      = .failure 400 "Unknown test. Use: ttest | anova | kruskal." exNone := by
  have hrun := run_stats_reaches_core sqrtQ env df groupF valueF testF gc vc ts t
    hgc2 hvc2 hts2 ht hgc hvc hts hg hv hneq
  rw [hrun]
  simp only [run_core, dispatch]
  rw [if_neg h1, if_neg h2, if_neg h3]
  rfl

/-- Witness for C7: the identifier `wilcoxon`. -/
theorem claim_C7_witness :
    run_stats qId envOk (some (.ok ⟨["g", "v"], [[some "A", some "1"]]⟩))
        (some "g") (some "v") (some "wilcoxon")
      = .failure 400 "Unknown test. Use: ttest | anova | kruskal." exNone :=
  claim_C7_unknown_identifier qId envOk ⟨["g", "v"], [[some "A", some "1"]]⟩
    (some "g") (some "v") (some "wilcoxon") "g" "v" "wilcoxon" [⟨some "A", 1⟩]
    rfl rfl rfl (by decide) (by decide) (by decide) (by decide) (by decide)
    (by decide) (by decide) (by decide) (by decide) (by decide)

/-- Claim C10: the descriptives computation is total on every cleaned table
(it is a Lean function, so it never raises — and cleaning only produces a
table when the two column names are distinct, the `hneq` hypothesis; with
equal names the request crashes at line 104 before descriptives run); for a
group with exactly one surviving row the sample standard deviation is the
missing marker and hence `std`, `sem`, `ci95_lo`, `ci95_hi` of that group's
record are all missing, while a request whose dispatch succeeds still
returns the `ok: true` payload containing that record. -/
theorem claim_C10_single_row_group (sqrtQ : ℚ → ℚ) (env : TestEnv)
    (df : DataFrame) (groupF valueF testF : Option String) (gc vc ts : String)
    (t : List CleanRow) (g : String) (tr : TestResult)
    (hgc2 : gc = pyStrip (groupF.getD "")) (hvc2 : vc = pyStrip (valueF.getD ""))
    (hts2 : ts = pyLower (pyStrip (testF.getD "")))
    (ht : t = cleanTable df (df.header.findIdx (fun c => c == gc))
        (df.header.findIdx (fun c => c == vc)))
    (hgc : gc ≠ "") (hvc : vc ≠ "") (hts : ts ≠ "")
    (hg : gc ∈ df.header) (hv : vc ∈ df.header) (hneq : gc ≠ vc)
    (h1 : (groupValues t g).length = 1)
    (h2 : dispatch env ts gc vc t = .ok tr) :
    run_stats sqrtQ env (some (.ok df)) groupF valueF testF
      = .success ⟨groupsOf t, nByGroup t, descriptives sqrtQ t, ts, tr⟩
    ∧ descRecord sqrtQ t g ∈ descriptives sqrtQ t
    ∧ (descRecord sqrtQ t g).std = none
    ∧ (descRecord sqrtQ t g).sem = none
    ∧ (descRecord sqrtQ t g).ci95_lo = none
    ∧ (descRecord sqrtQ t g).ci95_hi = none := by
  have hrun := run_stats_reaches_core sqrtQ env df groupF valueF testF gc vc ts t
    hgc2 hvc2 hts2 ht hgc hvc hts hg hv hneq
  have hmem : descRecord sqrtQ t g ∈ descriptives sqrtQ t := by
    have hpos : 0 < (t.filter (fun r => r.group == some g)).length := by
      have hlen := h1
      rw [groupValues, List.length_map] at hlen
      omega
    obtain ⟨r, hr⟩ := List.exists_mem_of_ne_nil _ (List.length_pos.mp hpos)
    have hrt := List.mem_filter.mp hr
    have hgmem : g ∈ groupsOf t :=
      (mem_groupsOf g t).mpr ⟨r, hrt.1, by simpa using hrt.2⟩
    exact List.mem_map_of_mem _ hgmem
  refine ⟨?_, hmem, ?_, ?_, ?_, ?_⟩
  · rw [hrun]
    simp [run_core, assemble, h2]
  · simp [descRecord, sampleVar, h1]
  · simp [descRecord, sampleVar, h1, oDiv]
  · cases hqm : qmean (groupValues t g) <;>
      simp [descRecord, sampleVar, h1, oDiv, oMul, oSub, hqm]
  · cases hqm : qmean (groupValues t g) <;>
      simp [descRecord, sampleVar, h1, oDiv, oMul, oAdd, hqm]

/-- Witness for C10: group `A` has one row, group `B` two, test `ttest`
succeeds on the stub environment. -/
theorem claim_C10_witness :
    run_stats qId envOk
        (some (.ok ⟨["g", "v"],
          [[some "A", some "1"], [some "B", some "2"], [some "B", some "3"]]⟩))
        (some "g") (some "v") (some "ttest")
      = .success
          ⟨groupsOf [⟨some "A", 1⟩, ⟨some "B", 2⟩, ⟨some "B", 3⟩],
            nByGroup [⟨some "A", 1⟩, ⟨some "B", 2⟩, ⟨some "B", 3⟩],
            descriptives qId [⟨some "A", 1⟩, ⟨some "B", 2⟩, ⟨some "B", 3⟩],
            "ttest", .welch 0 0⟩
    ∧ (descRecord qId [⟨some "A", 1⟩, ⟨some "B", 2⟩, ⟨some "B", 3⟩] "A").std = none
    ∧ (descRecord qId [⟨some "A", 1⟩, ⟨some "B", 2⟩, ⟨some "B", 3⟩] "A").sem = none
    ∧ (descRecord qId [⟨some "A", 1⟩, ⟨some "B", 2⟩, ⟨some "B", 3⟩] "A").ci95_lo = none
    ∧ (descRecord qId [⟨some "A", 1⟩, ⟨some "B", 2⟩, ⟨some "B", 3⟩] "A").ci95_hi = none := by
  have h := claim_C10_single_row_group qId envOk
    ⟨["g", "v"], [[some "A", some "1"], [some "B", some "2"], [some "B", some "3"]]⟩
    (some "g") (some "v") (some "ttest") "g" "v" "ttest"
    [⟨some "A", 1⟩, ⟨some "B", 2⟩, ⟨some "B", 3⟩] "A" (.welch 0 0)
    rfl rfl rfl (by decide) (by decide) (by decide) (by decide) (by decide)
    (by decide) (by decide) (by decide) rfl
  exact ⟨h.1, h.2.2.1, h.2.2.2.1, h.2.2.2.2.1, h.2.2.2.2.2⟩

/-- Claim C4: a row whose value cell fails numeric coercion is silently
dropped: the request behaves exactly as if the row were absent (no error is
introduced and the row is reflected in no group list, count, descriptive
record or test input), and the cleaned table itself is unchanged. -/
theorem claim_C4_unparseable_row_dropped (sqrtQ : ℚ → ℚ) (env : TestEnv)
    (hd : List String) (rows1 rows2 : List (List Cell)) (r : List Cell)
    (groupF valueF testF : Option String)
    (hbad : coerceCell
        (r.getD (hd.findIdx (fun c => c == pyStrip (valueF.getD ""))) none)
      = none) :
    run_stats sqrtQ env (some (.ok ⟨hd, rows1 ++ r :: rows2⟩)) groupF valueF testF
      = run_stats sqrtQ env (some (.ok ⟨hd, rows1 ++ rows2⟩)) groupF valueF testF
    ∧ ∀ gi, cleanTable ⟨hd, rows1 ++ r :: rows2⟩ gi
          (hd.findIdx (fun c => c == pyStrip (valueF.getD "")))
        = cleanTable ⟨hd, rows1 ++ rows2⟩ gi
          (hd.findIdx (fun c => c == pyStrip (valueF.getD ""))) := by
  have hclean : ∀ gi, cleanTable ⟨hd, rows1 ++ r :: rows2⟩ gi
        (hd.findIdx (fun c => c == pyStrip (valueF.getD "")))
      = cleanTable ⟨hd, rows1 ++ rows2⟩ gi
        (hd.findIdx (fun c => c == pyStrip (valueF.getD ""))) := by
    intro gi
    have hrow : rowClean gi (hd.findIdx (fun c => c == pyStrip (valueF.getD ""))) r
        = none := by
      simp only [rowClean]
      rw [hbad]
      rfl
    simp [cleanTable, List.filterMap_append, List.filterMap_cons, hrow]
  refine ⟨?_, hclean⟩
  simp only [run_stats]
  rw [hclean]

/-- Witness for C4: a row with value `n/a` between two parseable rows is
dropped, and the request result is identical to the one without that row. -/
theorem claim_C4_witness :
    run_stats qId envOk (some (.ok ⟨["g", "v"],
        [[some "A", some "1"]] ++ [some "A", some "n/a"] :: [[some "B", some "2"]]⟩))
        (some "g") (some "v") (some "ttest")
      = run_stats qId envOk (some (.ok ⟨["g", "v"],
          [[some "A", some "1"]] ++ [[some "B", some "2"]]⟩))
        (some "g") (some "v") (some "ttest")
    ∧ ∀ gi, cleanTable
          ⟨["g", "v"],
            [[some "A", some "1"]] ++ [some "A", some "n/a"] :: [[some "B", some "2"]]⟩
          gi (["g", "v"].findIdx (fun c => c == pyStrip ((some "v" : Option String).getD "")))
        = cleanTable ⟨["g", "v"], [[some "A", some "1"]] ++ [[some "B", some "2"]]⟩
          gi (["g", "v"].findIdx (fun c => c == pyStrip ((some "v" : Option String).getD ""))) :=
  claim_C4_unparseable_row_dropped qId envOk ["g", "v"] [[some "A", some "1"]]
    [[some "B", some "2"]] [some "A", some "n/a"] (some "g") (some "v")
    (some "ttest") (by decide)

/-- Possible outcomes of the dispatcher: a test result, an HTTP 400
validation failure with one of the fixed messages, or the HTTP 500 analysis
failure carrying the exception detail string. -/
theorem dispatch_outcome (env : TestEnv) (ts gc vc : String) (t : List CleanRow) :
    (∃ tr, dispatch env ts gc vc t = .ok tr)
    ∨ (∃ fl, dispatch env ts gc vc t = .error fl
        ∧ ((fl.code = 400 ∧ fl.error ∈ validationMsgs)
          ∨ (fl.code = 500 ∧ fl.error = "Exception during analysis."
              ∧ ∃ d, fl.extra.detail = some d))) := by
  by_cases h1 : ts = "ttest"
  · subst h1
    by_cases h2 : (groupsOf t).length ≠ 2
    · exact Or.inr ⟨applicErr "t-test requires exactly 2 groups." (groupsOf t),
        by simp [dispatch, h2],
        Or.inl ⟨rfl,
          (by decide : ("t-test requires exactly 2 groups." : String) ∈ validationMsgs)⟩⟩
    · have hdisp : dispatch env "ttest" gc vc t = ttestRun env t (groupsOf t) := by
        simp [dispatch, h2]
      rcases henv : env.ttest (groupValues t ((groupsOf t).getD 0 ""))
          (groupValues t ((groupsOf t).getD 1 "")) with e | p
      · refine Or.inr ⟨analysisErr e, ?_, Or.inr ⟨rfl, rfl, e, rfl⟩⟩
        rw [hdisp]
        simp only [ttestRun]
        rw [henv]
      · obtain ⟨tv, pv⟩ := p
        refine Or.inl ⟨.welch tv pv, ?_⟩
        rw [hdisp]
        simp only [ttestRun]
        rw [henv]
  · by_cases h2 : ts = "anova"
    · subst h2
      by_cases h3 : (groupsOf t).length < 3
      · exact Or.inr ⟨applicErr "One-way ANOVA requires ≥3 groups." (groupsOf t),
          by simp [dispatch, h3],
          Or.inl ⟨rfl,
            (by decide : ("One-way ANOVA requires ≥3 groups." : String) ∈ validationMsgs)⟩⟩
      · have hdisp : dispatch env "anova" gc vc t = anovaRun env t gc vc := by
          simp [dispatch, h3]
        rcases henv : env.anovaTbl t vc gc with e | tbl
        · refine Or.inr ⟨analysisErr e, ?_, Or.inr ⟨rfl, rfl, e, rfl⟩⟩
          rw [hdisp]
          simp only [anovaRun]
          rw [henv]
        · rcases henv2 : env.tukey t with e | tk
          · refine Or.inr ⟨analysisErr e, ?_, Or.inr ⟨rfl, rfl, e, rfl⟩⟩
            rw [hdisp]
            simp only [anovaRun]
            rw [henv, henv2]
          · refine Or.inl ⟨.anova tbl tk, ?_⟩
            rw [hdisp]
            simp only [anovaRun]
            rw [henv, henv2]
    · by_cases h3 : ts = "kruskal"
      · subst h3
        by_cases h4 : (groupsOf t).length < 3
        · exact Or.inr ⟨applicErr "Kruskal–Wallis requires ≥3 groups." (groupsOf t),
            by simp [dispatch, h1, h4],
            Or.inl ⟨rfl,
              (by decide : ("Kruskal–Wallis requires ≥3 groups." : String) ∈ validationMsgs)⟩⟩
        · have hdisp : dispatch env "kruskal" gc vc t = kruskalRun env t (groupsOf t) := by
            simp [dispatch, h4]
          rcases henv : env.kruskal ((groupsOf t).map (groupValues t)) with e | p
          · refine Or.inr ⟨analysisErr e, ?_, Or.inr ⟨rfl, rfl, e, rfl⟩⟩
            rw [hdisp]
            simp only [kruskalRun]
            rw [henv]
          · obtain ⟨kh, kp⟩ := p
            rcases henv2 : env.dunn t with e | d
            · refine Or.inr ⟨analysisErr e, ?_, Or.inr ⟨rfl, rfl, e, rfl⟩⟩
              rw [hdisp]
              simp only [kruskalRun]
              rw [henv, henv2]
            · refine Or.inl ⟨.kruskal kh kp d, ?_⟩
              rw [hdisp]
              simp only [kruskalRun]
              rw [henv, henv2]
      · exact Or.inr ⟨⟨400, "Unknown test. Use: ttest | anova | kruskal.", exNone⟩,
          by simp [dispatch, h1, h2, h3],
          Or.inl ⟨rfl,
            (by decide :
              ("Unknown test. Use: ttest | anova | kruskal." : String) ∈ validationMsgs)⟩⟩

/-- Every request produces either the success payload, or a structured
failure payload (HTTP 400 with one of the fixed validation messages, or
HTTP 500 with the analysis-exception message and the underlying detail
string), or — on the one path outside both `try` blocks — the raw unhandled
TypeError of line 104, reached exactly when the group and value fields name
the same existing column. -/
theorem run_stats_outcomes (sqrtQ : ℚ → ℚ) (env : TestEnv)
    (file : Option (Except String DataFrame))
    (groupF valueF testF : Option String) :
    (∃ p, run_stats sqrtQ env file groupF valueF testF = .success p)
    ∨ (∃ fl : Failure,
        run_stats sqrtQ env file groupF valueF testF
          = .failure fl.code fl.error fl.extra
        ∧ fl.error ≠ ""
        ∧ ((fl.code = 400 ∧ fl.error ∈ validationMsgs)
          ∨ (fl.code = 500 ∧ fl.error = "Exception during analysis."
              ∧ ∃ d, fl.extra.detail = some d)))
    ∨ run_stats sqrtQ env file groupF valueF testF
        = .crash "TypeError: arg must be a list, tuple, 1-d array, or Series" := by
  cases file with
  | none =>
    exact Or.inr (Or.inl ⟨⟨400, "No CSV uploaded.", exNone⟩, rfl,
      (by decide : ("No CSV uploaded." : String) ≠ ""),
      Or.inl ⟨rfl, (by decide : ("No CSV uploaded." : String) ∈ validationMsgs)⟩⟩)
  | some parsed =>
    by_cases hp : pyStrip (groupF.getD "") = "" ∨ pyStrip (valueF.getD "") = ""
        ∨ pyLower (pyStrip (testF.getD "")) = ""
    · refine Or.inr (Or.inl ⟨⟨400, "Missing group/value/test parameters.",
        { exNone with params := some (formKeys groupF valueF testF) }⟩, ?_,
        (by decide : ("Missing group/value/test parameters." : String) ≠ ""),
        Or.inl ⟨rfl,
          (by decide :
            ("Missing group/value/test parameters." : String) ∈ validationMsgs)⟩⟩)
      simp only [run_stats]
      rw [if_pos hp]
    · cases parsed with
      | error e =>
        refine Or.inr (Or.inl ⟨⟨400, "Could not read CSV.",
          { exNone with detail := some e }⟩, ?_,
          (by decide : ("Could not read CSV." : String) ≠ ""),
          Or.inl ⟨rfl,
            (by decide : ("Could not read CSV." : String) ∈ validationMsgs)⟩⟩)
        simp only [run_stats]
        rw [if_neg hp]
      | ok df =>
        by_cases hcols : pyStrip (groupF.getD "") ∈ df.header
            ∧ pyStrip (valueF.getD "") ∈ df.header
        · by_cases heq : pyStrip (groupF.getD "") = pyStrip (valueF.getD "")
          · refine Or.inr (Or.inr ?_)
            simp only [run_stats]
            rw [if_neg hp, if_pos hcols, if_pos heq]
          · have hrun : run_stats sqrtQ env (some (.ok df)) groupF valueF testF
                = run_core sqrtQ env (pyStrip (groupF.getD ""))
                    (pyStrip (valueF.getD "")) (pyLower (pyStrip (testF.getD "")))
                    (cleanTable df
                      (df.header.findIdx (fun c => c == pyStrip (groupF.getD "")))
                      (df.header.findIdx (fun c => c == pyStrip (valueF.getD "")))) := by
              simp only [run_stats]
              rw [if_neg hp, if_pos hcols, if_neg heq]
            rcases dispatch_outcome env (pyLower (pyStrip (testF.getD "")))
                (pyStrip (groupF.getD "")) (pyStrip (valueF.getD ""))
                (cleanTable df
                  (df.header.findIdx (fun c => c == pyStrip (groupF.getD "")))
                  (df.header.findIdx (fun c => c == pyStrip (valueF.getD ""))))
              with ⟨tr, htr⟩ | ⟨fl, hfl, hprop⟩
            · refine Or.inl ⟨⟨groupsOf (cleanTable df
                  (df.header.findIdx (fun c => c == pyStrip (groupF.getD "")))
                  (df.header.findIdx (fun c => c == pyStrip (valueF.getD "")))),
                nByGroup (cleanTable df
                  (df.header.findIdx (fun c => c == pyStrip (groupF.getD "")))
                  (df.header.findIdx (fun c => c == pyStrip (valueF.getD "")))),
                descriptives sqrtQ (cleanTable df
                  (df.header.findIdx (fun c => c == pyStrip (groupF.getD "")))
                  (df.header.findIdx (fun c => c == pyStrip (valueF.getD "")))),
                pyLower (pyStrip (testF.getD "")), tr⟩, ?_⟩
              rw [hrun]
              simp [run_core, assemble, htr]
            · refine Or.inr (Or.inl ⟨fl, ?_, ?_, hprop⟩)
              · rw [hrun]
                simp [run_core, assemble, hfl]
              · rcases hprop with ⟨_, hmem⟩ | ⟨_, heq2, _⟩
                · have hall : ∀ m ∈ validationMsgs, m ≠ "" := by decide
                  exact hall _ hmem
                · rw [heq2]
                  decide
        · refine Or.inr (Or.inl ⟨⟨400, "Column not found in CSV.",
            { exNone with
                columns := some df.header
                group_requested := some (pyStrip (groupF.getD ""))
                value_requested := some (pyStrip (valueF.getD "")) }⟩, ?_,
            (by decide : ("Column not found in CSV." : String) ≠ ""),
            Or.inl ⟨rfl,
              (by decide : ("Column not found in CSV." : String) ∈ validationMsgs)⟩⟩)
          simp only [run_stats]
          rw [if_neg hp, if_neg hcols]

/-- Claim C5 (code bug): the claim states that every failure is returned as a
structured `ok: false` payload with HTTP 400/500 and that no raw fault ever
escapes — the evident intent of the code (its `json_error` machinery, the
non-throwing coercion, and the catch-all `try` around the analysis). The
code falls short of it: when the group and value fields name the same
existing column, line 103 duplicates the column, line 104 applies
`pd.to_numeric` to a two-column DataFrame and raises TypeError outside both
`try` blocks, and the raw fault escapes to Flask. This theorem evaluates the
pipeline at that failing input. -/
theorem claim_C5_crash :
    run_stats qId envOk (some (.ok ⟨["g", "v"], [[some "A", some "1"]]⟩))
        (some "v") (some "v") (some "ttest")
      = .crash "TypeError: arg must be a list, tuple, 1-d array, or Series" :=
  rfl

end MySite
